import Mathlib

/-!
Shallow embedding of the RealtyPlus Telegram support bot (src/main.py) and
verification of its specified properties.

Modelling conventions:
* Python strings become Lean `String`; `str.lower()` / `str.upper()` are
  modelled by `pyLower` / `pyUpper`, which agree with Python on the ASCII and
  Latin-1 letter ranges (the only characters occurring in the program's data).
* The external Gemini AI capability (classification and translation calls) and
  the externally loaded `data.json` catalog are inputs of the embedding,
  collected in the `Env` structure: `ai_reply = none` models the
  `generate_content` call raising an exception, `some r` models it returning
  text `r`; likewise `tr_reply` for the translation call.  `RESPONSES` is the
  parsed catalog as an association list with distinct keys (a Python dict).
* The per-user Telegram `context.user_data` dict is modelled by `Session`
  (`user_language`, `awaiting_confirmation`, `suggested_categories`, with the
  Python `dict.get` defaults for absent keys).
* `update.message.reply_text` calls are collected, in order, in the returned
  `List String`.
-/

namespace RealtyBot

/-- Lowercase a character as Python `str.lower` does on the ASCII and Latin-1
letter ranges (`A`-`Z` and `À`-`Þ` except `×` map down by 0x20). -/
def pyLowerChar (c : Char) : Char :=
  if 'A' ≤ c ∧ c ≤ 'Z' then Char.ofNat (c.toNat + 32)
  else if 0xC0 ≤ c.toNat ∧ c.toNat ≤ 0xDE ∧ c.toNat ≠ 0xD7 then Char.ofNat (c.toNat + 32)
  else c

/-- Python `str.lower`, restricted to the character ranges used by the program. -/
def pyLower (s : String) : String := String.mk (s.data.map pyLowerChar)

/-- Uppercase a character as Python `str.upper` does on ASCII and Latin-1
letters (excluding the special cases `ß` and `ÿ`, which never occur here). -/
def pyUpperChar (c : Char) : Char :=
  if 'a' ≤ c ∧ c ≤ 'z' then Char.ofNat (c.toNat - 32)
  else if 0xE0 ≤ c.toNat ∧ c.toNat ≤ 0xFE ∧ c.toNat ≠ 0xF7 then Char.ofNat (c.toNat - 32)
  else c

/-- Python `str.upper`, restricted to the character ranges used by the program. -/
def pyUpper (s : String) : String := String.mk (s.data.map pyUpperChar)

/-- Helper for `substrOf`: does `needle` occur as a contiguous run in `hay`? -/
def substrAux (needle : List Char) : List Char → Bool
  | [] => needle.isEmpty
  | c :: cs => needle.isPrefixOf (c :: cs) || substrAux needle cs

/-- Python's `needle in hay` substring test on strings. -/
def substrOf (needle hay : String) : Bool := substrAux needle.data hay.data

/-- The `spanish_indicators` list of `detect_language` (src/main.py lines 46-52),
copied character-for-character (the source file is mojibake-encoded; the
indicators literally contain `Ã©` etc.). -/
def spanish_indicators : List String :=
  ["quÃ©", "cÃ³mo", "cuÃ¡ndo", "dÃ³nde", "por quÃ©", "cuÃ¡l", "cuÃ¡les",
   "puedo", "necesito", "quiero", "ayuda", "informaciÃ³n",
   "paÃ­ses", "incluye", "recibo", "apoyo", "empezar", "contactar",
   "hola", "gracias", "favor", "mÃ¡s", "sÃ­", "no", "bueno",
   "tambiÃ©n", "esto", "eso", "aquÃ­", "allÃ­", "ahora", "despuÃ©s"]

/-- The `english_indicators` list of `detect_language` (src/main.py lines 55-59). -/
def english_indicators : List String :=
  ["what", "how", "when", "where", "why", "which", "who",
   "can", "need", "want", "help", "information", "the", "is",
   "are", "this", "that", "here", "there", "now", "later"]

/-- `spanish_count` of `detect_language`: number of Spanish indicators occurring
in the lowercased text (src/main.py line 62). -/
def spanishCount (text : String) : Nat :=
  spanish_indicators.countP (fun indicator => substrOf indicator (pyLower text))

/-- `english_count` of `detect_language` (src/main.py line 63). -/
def englishCount (text : String) : Nat :=
  english_indicators.countP (fun indicator => substrOf indicator (pyLower text))

/-- `detect_language` (src/main.py lines 44-74). -/
def detect_language (text : String) : String :=
  if spanishCount text > englishCount text then "es"
  else if englishCount text > 0 then "en"
  else "en"

/-- External inputs of one message-handling turn: whether a Gemini API key is
configured, the outcome of the (at most one) classification call and of the
translation call, and the catalog loaded from `data.json` (src/main.py
lines 14-19, 27-35). -/
structure Env where
  gemini_api_key : Bool
  ai_reply : Option String
  tr_reply : String → Option String
  RESPONSES : List (String × String)

/-- `CATEGORIES = list(RESPONSES.keys())` (src/main.py line 30). -/
def Env.CATEGORIES (env : Env) : List String := env.RESPONSES.map Prod.fst

/-- `translate_response` (src/main.py lines 76-104): identity for English; when
no API key is configured or the translation call raises, return the original
text; otherwise return the stripped reply. -/
def translate_response (env : Env) (response_text target_language : String) : String :=
  if target_language = "en" then response_text
  else if env.gemini_api_key = false then response_text
  else
    match env.tr_reply response_text with
    | some t => t.trim
    | none => response_text

/-- `get_category_from_ai` (src/main.py lines 167-212).  With no API key it
returns `OTHER`; with an AI reply it strips, uppercases and validates it
against `CATEGORIES`; when the AI call raises it falls back to the hardcoded
first-match-wins phrase rules of lines 200-212. -/
def get_category_from_ai (env : Env) (user_question : String) : String :=
  if env.gemini_api_key = false then "OTHER"
  else
    match env.ai_reply with
    | some raw =>
      let classified_category := pyUpper raw.trim
      if classified_category ∈ env.CATEGORIES then classified_category else "OTHER"
    | none =>
      let user_question_lower := pyLower user_question
      if substrOf "quÃ© es" user_question_lower || substrOf "what is" user_question_lower then
        "WHAT_IS_REALTYPLUS"
      else if substrOf "paÃ­ses" user_question_lower || substrOf "countries" user_question_lower then
        "COUNTRIES_OPERATING_IN"
      else if substrOf "incluye" user_question_lower || substrOf "included" user_question_lower then
        "FRANCHISE_INCLUSIONS"
      else if substrOf "empezar" user_question_lower || substrOf "started" user_question_lower then
        "STEPS_TO_GET_STARTED"
      else if substrOf "contactar" user_question_lower || substrOf "contact" user_question_lower then
        "CONTACT_EXPANSION_TEAM"
      else "OTHER"

/-- The categories the exception-fallback of `get_category_from_ai` can return
besides `OTHER` (src/main.py lines 200-212). -/
def fallback_categories : List String :=
  ["WHAT_IS_REALTYPLUS", "COUNTRIES_OPERATING_IN", "FRANCHISE_INCLUSIONS",
   "STEPS_TO_GET_STARTED", "CONTACT_EXPANSION_TEAM"]

/-- The `keyword_map` dict of `find_similar_categories` (src/main.py
lines 219-249), in its literal (= iteration) order. -/
def keyword_map : List (String × List String) :=
  [("WHAT_IS_REALTYPLUS", ["quÃ© es", "what is", "informaciÃ³n", "empresa", "company", "realtyplus"]),
   ("COUNTRIES_OPERATING_IN", ["paÃ­ses", "countries", "dÃ³nde", "where", "ubicaciÃ³n", "location", "operan"]),
   ("FRANCHISE_INCLUSIONS", ["incluye", "included", "quÃ© recibo", "what do i get", "beneficios", "benefits"]),
   ("FRANCHISE_VS_MASTER", ["diferencia", "difference", "master", "franquicia vs"]),
   ("REAL_ESTATE_EXPERIENCE_REQ", ["experiencia", "experience", "necesito", "requisitos"]),
   ("START_ALONE_OR_TEAM", ["solo", "alone", "equipo", "team"]),
   ("ONBOARDING_LAUNCH_TIME", ["cuÃ¡nto tiempo", "how long", "tiempo", "launch", "empezar"]),
   ("SUPPORT_RECEIVED", ["apoyo", "support", "ayuda", "help"]),
   ("OPERATE_INTERNATIONALLY", ["internacional", "international", "global"]),
   ("STEPS_TO_GET_STARTED", ["cÃ³mo empezar", "how to start", "pasos", "steps", "comenzar"]),
   ("AREA_EXCLUSIVITY", ["exclusividad", "exclusivity", "territorio", "territory"]),
   ("MARKETING_ASSISTANCE", ["marketing", "publicidad", "advertising"]),
   ("RECRUITMENT_ASSISTANCE", ["reclutar", "recruitment", "contratar", "hiring"]),
   ("TECHNOLOGY_TOOLS_OFFERED", ["tecnologÃ­a", "technology", "herramientas", "tools", "plataforma"]),
   ("CONTACT_EXPANSION_TEAM", ["contactar", "contact", "hablar", "llamada", "call", "reuniÃ³n"]),
   ("WHERE_CAN_I_OPEN", ["dÃ³nde puedo", "where can", "abrir", "open"]),
   ("WHY_CHOOSE_REALTYPLUS", ["por quÃ©", "why", "elegir", "choose", "ventajas"]),
   ("RECEIVE_DOCUMENTS_BROCHURE", ["documentos", "documents", "folleto", "brochure"]),
   ("TIME_DEDICATION_REQUIRED", ["dedicaciÃ³n", "dedication", "tiempo dedicar"]),
   ("PHYSICAL_OFFICE_NEED", ["oficina", "office", "fÃ­sica", "physical"]),
   ("TRAINING_FOR_TEAM", ["capacitaciÃ³n", "training", "entrenamiento", "formaciÃ³n"]),
   ("EXPAND_TO_MULTIPLE_CITIES", ["expandir", "expand", "ciudades", "cities"]),
   ("VISIT_HEADQUARTERS", ["visitar", "visit", "oficinas", "headquarters"]),
   ("GROW_BEYOND_SALES", ["crecer", "grow", "mÃ¡s allÃ¡", "beyond"]),
   ("MULTIPLE_LANGUAGES_REQ", ["idiomas", "languages"]),
   ("MAIN_REQUIREMENTS_JOIN", ["requisitos", "requirements", "unirme", "join"]),
   ("CONTACT_OTHER_FRANCHISEES", ["franquiciados", "franchisees", "testimonios"]),
   ("HOW_INTERNATIONAL_SYSTEM_WORKS", ["sistema", "system", "funciona", "works"]),
   ("GROW_QUICKLY_POSSIBLE", ["rÃ¡pido", "quickly", "rÃ¡pidamente"])]

/-- The keys of `keyword_map`, in iteration order. -/
def keyword_map_keys : List String := keyword_map.map Prod.fst

/-- The keyword-overlap score of one category against a question
(the `score` computed at src/main.py line 253). -/
def categoryScore (user_question cat : String) : Nat :=
  match keyword_map.lookup cat with
  | some keywords => keywords.countP (fun keyword => substrOf keyword (pyLower user_question))
  | none => 0

/-- Position of a category in the `keyword_map` iteration order. -/
def catalogIdx (cat : String) : Nat := keyword_map_keys.indexOf cat

/-- Stable insertion of a scored pair into a list sorted by descending score:
the new element goes after every element of score `≥` its own. -/
def insertDesc (x : String × Nat) : List (String × Nat) → List (String × Nat)
  | [] => [x]
  | y :: ys => if y.2 < x.2 then x :: y :: ys else y :: insertDesc x ys

/-- Python's stable `matches.sort(key=lambda x: x[1], reverse=True)`
(src/main.py line 258), modelled as a stable insertion sort: elements are
inserted left to right, each after all earlier elements of `≥` score, which is
exactly the (unique) stable descending-by-score reordering. -/
def sortByScoreDesc (l : List (String × Nat)) : List (String × Nat) :=
  l.foldl (fun acc x => insertDesc x acc) []

/-- The `matches` list of `find_similar_categories` (src/main.py
lines 251-255): scored categories with zero scores dropped, in
`keyword_map` order. -/
def matchesFor (user_question : String) : List (String × Nat) :=
  keyword_map.filterMap (fun p =>
    let score := p.2.countP (fun keyword => substrOf keyword (pyLower user_question))
    if score > 0 then some (p.1, score) else none)

/-- `find_similar_categories` (src/main.py lines 215-259).  The source's
`top_n=3` default is supplied explicitly at the call site. -/
def find_similar_categories (user_question : String) (top_n : Nat) : List String :=
  ((sortByScoreDesc (matchesFor user_question)).take top_n).map Prod.fst

/-- The `names_en` table of `get_category_display_name` (src/main.py lines 264-294). -/
def names_en : List (String × String) :=
  [("WHAT_IS_REALTYPLUS", "What is RealtyPlus?"),
   ("COUNTRIES_OPERATING_IN", "What countries do you operate in?"),
   ("FRANCHISE_INCLUSIONS", "What does the franchise include?"),
   ("FRANCHISE_VS_MASTER", "Difference between franchise and master franchise"),
   ("REAL_ESTATE_EXPERIENCE_REQ", "Real estate experience required"),
   ("START_ALONE_OR_TEAM", "Can I start alone or do I need a team?"),
   ("ONBOARDING_LAUNCH_TIME", "Time to get started"),
   ("SUPPORT_RECEIVED", "Support I will receive"),
   ("OPERATE_INTERNATIONALLY", "International operations"),
   ("STEPS_TO_GET_STARTED", "Steps to get started"),
   ("AREA_EXCLUSIVITY", "Area exclusivity"),
   ("MARKETING_ASSISTANCE", "Marketing assistance"),
   ("RECRUITMENT_ASSISTANCE", "Recruitment assistance"),
   ("TECHNOLOGY_TOOLS_OFFERED", "Technology tools offered"),
   ("CONTACT_EXPANSION_TEAM", "Contact the expansion team"),
   ("WHERE_CAN_I_OPEN", "Where can I open?"),
   ("WHY_CHOOSE_REALTYPLUS", "Why choose RealtyPlus?"),
   ("RECEIVE_DOCUMENTS_BROCHURE", "Receive documents/brochure"),
   ("TIME_DEDICATION_REQUIRED", "Time dedication required"),
   ("PHYSICAL_OFFICE_NEED", "Physical office requirement"),
   ("TRAINING_FOR_TEAM", "Training for the team"),
   ("EXPAND_TO_MULTIPLE_CITIES", "Expand to multiple cities"),
   ("VISIT_HEADQUARTERS", "Visit headquarters"),
   ("GROW_BEYOND_SALES", "Grow beyond sales"),
   ("MULTIPLE_LANGUAGES_REQ", "Multiple languages requirement"),
   ("MAIN_REQUIREMENTS_JOIN", "Main requirements to join"),
   ("CONTACT_OTHER_FRANCHISEES", "Contact other franchisees"),
   ("HOW_INTERNATIONAL_SYSTEM_WORKS", "How the international system works"),
   ("GROW_QUICKLY_POSSIBLE", "Possibility of growing quickly")]

/-- The `names_es` table of `get_category_display_name` (src/main.py lines 296-326). -/
def names_es : List (String × String) :=
  [("WHAT_IS_REALTYPLUS", "Â¿QuÃ© es RealtyPlus?"),
   ("COUNTRIES_OPERATING_IN", "Â¿En quÃ© paÃ­ses operan?"),
   ("FRANCHISE_INCLUSIONS", "Â¿QuÃ© incluye la franquicia?"),
   ("FRANCHISE_VS_MASTER", "Diferencia entre franquicia y master franquicia"),
   ("REAL_ESTATE_EXPERIENCE_REQ", "Experiencia en bienes raÃ­ces requerida"),
   ("START_ALONE_OR_TEAM", "Â¿Puedo empezar solo o necesito un equipo?"),
   ("ONBOARDING_LAUNCH_TIME", "Tiempo para empezar"),
   ("SUPPORT_RECEIVED", "Apoyo que recibirÃ©"),
   ("OPERATE_INTERNATIONALLY", "Operaciones internacionales"),
   ("STEPS_TO_GET_STARTED", "Pasos para comenzar"),
   ("AREA_EXCLUSIVITY", "Exclusividad territorial"),
   ("MARKETING_ASSISTANCE", "Ayuda de marketing"),
   ("RECRUITMENT_ASSISTANCE", "Ayuda de reclutamiento"),
   ("TECHNOLOGY_TOOLS_OFFERED", "Herramientas tecnolÃ³gicas ofrecidas"),
   ("CONTACT_EXPANSION_TEAM", "Contactar al equipo de expansiÃ³n"),
   ("WHERE_CAN_I_OPEN", "Â¿DÃ³nde puedo abrir?"),
   ("WHY_CHOOSE_REALTYPLUS", "Â¿Por quÃ© elegir RealtyPlus?"),
   ("RECEIVE_DOCUMENTS_BROCHURE", "Recibir documentos/folleto"),
   ("TIME_DEDICATION_REQUIRED", "Tiempo de dedicaciÃ³n requerido"),
   ("PHYSICAL_OFFICE_NEED", "Requisito de oficina fÃ­sica"),
   ("TRAINING_FOR_TEAM", "CapacitaciÃ³n para el equipo"),
   ("EXPAND_TO_MULTIPLE_CITIES", "Expandir a mÃºltiples ciudades"),
   ("VISIT_HEADQUARTERS", "Visitar la sede"),
   ("GROW_BEYOND_SALES", "Crecer mÃ¡s allÃ¡ de las ventas"),
   ("MULTIPLE_LANGUAGES_REQ", "Requisito de mÃºltiples idiomas"),
   ("MAIN_REQUIREMENTS_JOIN", "Requisitos principales para unirse"),
   ("CONTACT_OTHER_FRANCHISEES", "Contactar a otros franquiciados"),
   ("HOW_INTERNATIONAL_SYSTEM_WORKS", "CÃ³mo funciona el sistema internacional"),
   ("GROW_QUICKLY_POSSIBLE", "Posibilidad de crecer rÃ¡pidamente")]

/-- `get_category_display_name` (src/main.py lines 262-329): `dict.get` with
the category key itself as default. -/
def get_category_display_name (category language : String) : String :=
  if language = "es" then (names_es.lookup category).getD category
  else (names_en.lookup category).getD category

/-- The follow-up message sent after every answered question
(src/main.py lines 386, 410). -/
def follow_up_msg (language : String) : String :=
  if language = "es" then "\nÂ¿Tienes otra pregunta? PregÃºntame lo que quieras."
  else "\nDo you have another question? Feel free to ask me anything."

/-- The invalid-selection error message (src/main.py line 390). -/
def invalid_selection_msg (language : String) : String :=
  if language = "es" then "Por favor selecciona un nÃºmero vÃ¡lido de la lista."
  else "Please select a valid number from the list."

/-- The default no-answer message (src/main.py lines 437-440). -/
def default_response_msg (language : String) : String :=
  if language = "es" then "Lo siento, no tengo una respuesta especÃ­fica para esa pregunta. Por favor contacta a nuestro equipo de expansiÃ³n para mÃ¡s informaciÃ³n, o intenta reformular tu pregunta."
  else "I\x27m sorry, I don\x27t have a specific answer for that question. Please contact our expansion team for more information, or try rephrasing your question."

/-- The numbered suggestion-list message built at src/main.py lines 422-433. -/
def suggestion_text (language : String) (similar : List String) : String :=
  let header :=
    if language = "es" then "No estoy seguro de haber entendido tu pregunta. Â¿Te refieres a alguna de estas opciones?\n\n"
    else "I\x27m not sure I understood your question. Did you mean one of these options?\n\n"
  let body := (List.enumFrom 1 similar).foldl
    (fun acc p => acc ++ toString p.1 ++ ". " ++ get_category_display_name p.2 language ++ "\n")
    header
  let footer :=
    if language = "es" then "\nEscribe el nÃºmero de la opciÃ³n que te interesa, o reformula tu pregunta."
    else "\nType the number of the option you\x27re interested in, or rephrase your question."
  body ++ footer

/-- Python's `int(user_text)` (src/main.py line 373), modelled on ASCII decimal
input: optional surrounding whitespace, optional sign, one or more digits;
`none` models the `ValueError`. -/
def parse_int (s : String) : Option Int :=
  let t := ((s.data.dropWhile Char.isWhitespace).reverse.dropWhile Char.isWhitespace).reverse
  let signed : Bool × List Char :=
    match t with
    | '-' :: rest => (true, rest)
    | '+' :: rest => (false, rest)
    | _ => (false, t)
  let ds := signed.2
  if ds ≠ [] ∧ ds.all (fun c => c.isDigit) then
    let n : Nat := ds.foldl (fun acc c => acc * 10 + (c.toNat - 48)) 0
    some (if signed.1 then -(n : Int) else (n : Int))
  else none

/-- The per-user `context.user_data` dict: `user_language` (absent on a fresh
session), `awaiting_confirmation` (`dict.get` default: falsy) and
`suggested_categories` (`dict.get` default: `[]`). -/
structure Session where
  user_language : Option String
  awaiting_confirmation : Bool
  suggested_categories : List String
deriving DecidableEq

/-- A fresh session: `context.user_data` empty. -/
def initialSession : Session := ⟨none, false, []⟩

/-- The language used for the turn (src/main.py lines 359-367): the saved
session language if present, else `detect_language` on this message. -/
def sessionLanguage (s : Session) (user_text : String) : String :=
  match s.user_language with
  | some l => l
  | none => detect_language user_text

/-- The Idle-state portion of `handle_message` (src/main.py lines 397-441):
classify, then reply + follow-up on a catalog hit, else a suggestion list
(entering the awaiting-confirmation state) or the default message.  Python's
`if category in RESPONSES: RESPONSES[category]` is modelled by one
association-list lookup. -/
def idle_flow (env : Env) (s : Session) (language user_text : String) :
    Session × List String :=
  let category := get_category_from_ai env user_text
  match env.RESPONSES.lookup category with
  | some response_text =>
    (s, [translate_response env response_text language, follow_up_msg language])
  | none =>
    let similar := find_similar_categories user_text 3
    if similar = [] then (s, [default_response_msg language])
    else
      ({ s with awaiting_confirmation := true, suggested_categories := similar },
       [suggestion_text language similar])

/-- `handle_message` (src/main.py lines 352-441) as one session transition:
given the turn's external inputs, the stored session and the incoming text, it
returns the updated session and the list of messages sent, in order. -/
def handle_message (env : Env) (s : Session) (user_text : String) :
    Session × List String :=
  let language := sessionLanguage s user_text
  let s0 : Session := { s with user_language := some language }
  if s.awaiting_confirmation then
    match parse_int user_text with
    | some choice =>
      let suggested := s.suggested_categories
      if 1 ≤ choice ∧ choice ≤ (suggested.length : Int) then
        let category := suggested.getD (choice - 1).toNat ""
        let s1 : Session := { s0 with awaiting_confirmation := false }
        match env.RESPONSES.lookup category with
        | some response_text =>
          (s1, [translate_response env response_text language, follow_up_msg language])
        | none => (s1, [])
      else
        (s0, [invalid_selection_msg language])
    | none =>
      idle_flow env { s0 with awaiting_confirmation := false } language user_text
  else
    idle_flow env s0 language user_text

/-- Session states reachable from a fresh session by any sequence of handled
messages, each turn under arbitrary external inputs. -/
inductive Reachable : Session → Prop
  | init : Reachable initialSession
  | step (env : Env) (s : Session) (text : String) :
      Reachable s → Reachable (handle_message env s text).1

/-- The ordering `find_similar_categories` is specified to produce on scored
pairs: strictly greater score first, ties broken by `keyword_map` position. -/
def rankRel (a b : String × Nat) : Prop :=
  b.2 < a.2 ∨ (a.2 = b.2 ∧ catalogIdx a.1 < catalogIdx b.1)

/-- The `RESPONSES` value the program starts with when `data.json` is missing
(src/main.py lines 32-35). -/
def RESPONSES_onLoadFailure : List (String × String) := []

/-- Environment with no Gemini API key and an empty catalog. -/
def envNoKey : Env := ⟨false, none, fun _ => none, []⟩

/-- Environment where the AI classification call raises, over an empty catalog. -/
def envAIDown : Env := ⟨true, none, fun _ => none, []⟩

/-- Environment where the AI replies with a valid catalog label. -/
def envAIUp : Env :=
  ⟨true, some "WHAT_IS_REALTYPLUS", fun _ => none,
   [("WHAT_IS_REALTYPLUS", "RealtyPlus is an international real estate franchise network.")]⟩

/-- Environment (no API key) whose catalog holds the one suggested category. -/
def envSupport : Env :=
  ⟨false, none, fun _ => none, [("SUPPORT_RECEIVED", "We provide full onboarding support.")]⟩

/-- Environment whose catalog contains every `keyword_map` key. -/
def envFullCatalog : Env := ⟨false, none, fun _ => none, keyword_map.map (fun p => (p.1, ""))⟩

/-- A session awaiting a numeric selection from a one-item suggestion list. -/
def sAwait : Session := ⟨some "es", true, ["SUPPORT_RECEIVED"]⟩

/-- Membership in a stable insertion: the element is the inserted one or was
already present. -/
theorem mem_insertDesc {x z : String × Nat} :
    ∀ {l : List (String × Nat)}, z ∈ insertDesc x l → z = x ∨ z ∈ l := by
  intro l
  induction l with
  | nil =>
    intro h
    rcases List.mem_singleton.1 h with rfl
    exact Or.inl rfl
  | cons y ys ih =>
    intro h
    unfold insertDesc at h
    by_cases hcmp : y.2 < x.2
    · rw [if_pos hcmp] at h
      rcases List.mem_cons.1 h with rfl | h'
      · exact Or.inl rfl
      · exact Or.inr h'
    · rw [if_neg hcmp] at h
      rcases List.mem_cons.1 h with rfl | h'
      · exact Or.inr (List.mem_cons_self _ _)
      · rcases ih h' with rfl | h''
        · exact Or.inl rfl
        · exact Or.inr (List.mem_cons_of_mem _ h'')

/-- Inserting an element whose `keyword_map` position is after everything in a
`rankRel`-sorted list keeps the list `rankRel`-sorted. -/
theorem insertDesc_pairwise {x : String × Nat} {l : List (String × Nat)}
    (hl : l.Pairwise rankRel) (hidx : ∀ y ∈ l, catalogIdx y.1 < catalogIdx x.1) :
    (insertDesc x l).Pairwise rankRel := by
  induction l with
  | nil => simp [insertDesc, rankRel]
  | cons y ys ih =>
    rw [List.pairwise_cons] at hl
    unfold insertDesc
    by_cases hcmp : y.2 < x.2
    · rw [if_pos hcmp]
      refine List.pairwise_cons.mpr ⟨?_, List.pairwise_cons.mpr ⟨hl.1, hl.2⟩⟩
      intro z hz
      rcases List.mem_cons.1 hz with rfl | hz'
      · exact Or.inl hcmp
      · rcases hl.1 z hz' with h | ⟨heq, _⟩
        · exact Or.inl (Nat.lt_trans h hcmp)
        · exact Or.inl (heq ▸ hcmp)
    · rw [if_neg hcmp]
      refine List.pairwise_cons.mpr
        ⟨?_, ih hl.2 (fun z hz => hidx z (List.mem_cons_of_mem _ hz))⟩
      intro z hz
      rcases mem_insertDesc hz with rfl | hz'
      · have hle : z.2 ≤ y.2 := Nat.le_of_not_lt hcmp
        rcases Nat.lt_or_eq_of_le hle with hlt | heq
        · exact Or.inl hlt
        · exact Or.inr ⟨heq.symm, hidx y (List.mem_cons_self _ _)⟩
      · exact hl.1 z hz'

/-- The insertion-sort fold produces a `rankRel`-sorted list when the input is
listed in increasing `keyword_map` position. -/
theorem foldl_insertDesc_pairwise :
    ∀ (xs acc : List (String × Nat)),
      acc.Pairwise rankRel →
      (∀ y ∈ acc, ∀ x ∈ xs, catalogIdx y.1 < catalogIdx x.1) →
      xs.Pairwise (fun a b => catalogIdx a.1 < catalogIdx b.1) →
      (xs.foldl (fun acc x => insertDesc x acc) acc).Pairwise rankRel := by
  intro xs
  induction xs with
  | nil => intro acc hacc _ _; exact hacc
  | cons x xs ih =>
    intro acc hacc hax hxs
    rw [List.foldl_cons]
    rw [List.pairwise_cons] at hxs
    refine ih _ (insertDesc_pairwise hacc (fun y hy => hax y hy x (List.mem_cons_self _ _))) ?_ hxs.2
    intro y hy z hz
    rcases mem_insertDesc hy with rfl | hy'
    · exact hxs.1 z hz
    · exact hax y hy' z (List.mem_cons_of_mem _ hz)

/-- Membership after the insertion-sort fold comes from the accumulator or the
input list. -/
theorem mem_foldl_insertDesc :
    ∀ (xs acc : List (String × Nat)) (z : String × Nat),
      z ∈ xs.foldl (fun acc x => insertDesc x acc) acc → z ∈ acc ∨ z ∈ xs := by
  intro xs
  induction xs with
  | nil => intro acc z h; exact Or.inl h
  | cons x xs ih =>
    intro acc z h
    rw [List.foldl_cons] at h
    rcases ih _ z h with h' | h'
    · rcases mem_insertDesc h' with rfl | h''
      · exact Or.inr (List.mem_cons_self _ _)
      · exact Or.inl h''
    · exact Or.inr (List.mem_cons_of_mem _ h')

/-- Association-list lookup of a member's key returns its value when keys are
distinct (as in a Python dict). -/
theorem lookup_eq_of_mem_nodup {β : Type} :
    ∀ (l : List (String × β)), (l.map Prod.fst).Nodup → ∀ p ∈ l, l.lookup p.1 = some p.2 := by
  intro l
  induction l with
  | nil => intro _ p hp; cases hp
  | cons e es ih =>
    intro hnd p hp
    rw [List.map_cons, List.nodup_cons] at hnd
    rcases List.mem_cons.1 hp with rfl | hp'
    · rw [List.lookup_cons]
      simp
    · rw [List.lookup_cons]
      have hne : (p.1 == e.1) = false := by
        rw [beq_eq_false_iff_ne]
        intro hcontra
        exact hnd.1 (hcontra ▸ List.mem_map_of_mem Prod.fst hp')
      rw [hne]
      exact ih hnd.2 p hp'

/-- The `keyword_map` keys are pairwise distinct. -/
theorem keyword_map_keys_nodup : keyword_map_keys.Nodup := by decide

/-- Elements of the raw `matches` list are catalog keywords entries with a
positive score equal to their category's keyword-overlap score. -/
theorem mem_matchesFor {q : String} {p : String × Nat} (hp : p ∈ matchesFor q) :
    p.1 ∈ keyword_map_keys ∧ 1 ≤ p.2 ∧ p.2 = categoryScore q p.1 := by
  unfold matchesFor at hp
  rcases List.mem_filterMap.1 hp with ⟨e, he, hfe⟩
  dsimp only at hfe
  by_cases hscore : (e.2.countP fun keyword => substrOf keyword (pyLower q)) > 0
  · rw [if_pos hscore] at hfe
    cases hfe
    refine ⟨List.mem_map_of_mem Prod.fst he, hscore, ?_⟩
    unfold categoryScore
    rw [lookup_eq_of_mem_nodup keyword_map keyword_map_keys_nodup e he]
  · rw [if_neg hscore] at hfe
    cases hfe

/-- The raw `matches` list is in strictly increasing `keyword_map` position. -/
theorem matchesFor_idx_pairwise (q : String) :
    (matchesFor q).Pairwise (fun a b => catalogIdx a.1 < catalogIdx b.1) := by
  unfold matchesFor
  rw [List.pairwise_filterMap]
  have base : keyword_map.Pairwise (fun e e' => catalogIdx e.1 < catalogIdx e'.1) := by decide
  refine base.imp_of_mem ?_
  intro e e' _ _ hlt b hb b' hb'
  have hb1 : b.1 = e.1 := by
    by_cases hs : (e.2.countP fun keyword => substrOf keyword (pyLower q)) > 0
    · rw [if_pos hs, Option.mem_def, Option.some_inj] at hb
      rw [← hb]
    · rw [if_neg hs] at hb
      cases hb
  have hb1' : b'.1 = e'.1 := by
    by_cases hs : (e'.2.countP fun keyword => substrOf keyword (pyLower q)) > 0
    · rw [if_pos hs, Option.mem_def, Option.some_inj] at hb'
      rw [← hb']
    · rw [if_neg hs] at hb'
      cases hb'
  rw [hb1, hb1']
  exact hlt

/-- The sorted `matches` list is `rankRel`-sorted. -/
theorem sortedMatches_pairwise (q : String) :
    (sortByScoreDesc (matchesFor q)).Pairwise rankRel :=
  foldl_insertDesc_pairwise (matchesFor q) [] List.Pairwise.nil
    (fun y hy => absurd hy (List.not_mem_nil y)) (matchesFor_idx_pairwise q)

/-- The sort is a reordering: its members all come from the raw `matches`. -/
theorem mem_sortedMatches {q : String} {z : String × Nat}
    (hz : z ∈ sortByScoreDesc (matchesFor q)) : z ∈ matchesFor q :=
  (mem_foldl_insertDesc (matchesFor q) [] z hz).resolve_left
    (fun h => absurd h (List.not_mem_nil z))

/-- The Idle-state flow can only raise `awaiting_confirmation` together with a
non-empty suggestion list. -/
theorem idle_flow_inv (env : Env) (s : Session) (language text : String)
    (hs : s.awaiting_confirmation = false) :
    (idle_flow env s language text).1.awaiting_confirmation = true →
    (idle_flow env s language text).1.suggested_categories ≠ [] := by
  unfold idle_flow
  cases hlook : env.RESPONSES.lookup (get_category_from_ai env text) with
  | some response_text =>
    simp only [hlook]
    intro h
    rw [hs] at h
    exact absurd h (by decide)
  | none =>
    simp only [hlook]
    by_cases hsim : find_similar_categories text 3 = []
    · rw [if_pos hsim]
      intro h
      rw [hs] at h
      exact absurd h (by decide)
    · rw [if_neg hsim]
      intro _
      exact hsim

/-- One message-handling step preserves the one-sided invariant that an
awaiting session has pending suggestions. -/
theorem handle_message_inv (env : Env) (s : Session) (text : String)
    (hs : s.awaiting_confirmation = true → s.suggested_categories ≠ []) :
    (handle_message env s text).1.awaiting_confirmation = true →
    (handle_message env s text).1.suggested_categories ≠ [] := by
  unfold handle_message
  by_cases haw : s.awaiting_confirmation
  · rw [if_pos haw]
    cases hp : parse_int text with
    | some choice =>
      simp only [hp]
      by_cases hrange : 1 ≤ choice ∧ choice ≤ (s.suggested_categories.length : Int)
      · rw [if_pos hrange]
        cases hlook : env.RESPONSES.lookup (s.suggested_categories.getD (choice - 1).toNat "") with
        | some response_text =>
          simp only [hlook]
          intro h
          exact absurd h (by decide)
        | none =>
          simp only [hlook]
          intro h
          exact absurd h (by decide)
      · rw [if_neg hrange]
        intro _
        exact hs haw
    | none =>
      simp only [hp]
      exact idle_flow_inv env _ _ text rfl
  · rw [if_neg haw]
    refine idle_flow_inv env _ _ text ?_
    simp only [Bool.not_eq_true] at haw
    exact haw

/-- The awaiting session `sAwait` is reachable: a fresh session, apiless
environment and the question "ayuda" classify to `OTHER` and rank to the
one-element suggestion list. -/
theorem reachable_sAwait : Reachable sAwait := by
  have h1 : (handle_message envNoKey initialSession "ayuda").1 = sAwait := by decide
  exact h1 ▸ Reachable.step envNoKey initialSession "ayuda" Reachable.init

/-- After selecting "1" from `sAwait` over the empty catalog, the reachable
state has `awaiting_confirmation` false but a non-empty stale suggestion list. -/
theorem reachable_stale : Reachable ⟨some "es", false, ["SUPPORT_RECEIVED"]⟩ := by
  have h2 : (handle_message envNoKey sAwait "1").1 =
      ⟨some "es", false, ["SUPPORT_RECEIVED"]⟩ := by decide
  exact h2 ▸ Reachable.step envNoKey sAwait "1" reachable_sAwait

/-- Claim C1, counterexample: `find_similar_categories` ranks from its own
hardcoded keyword map and never consults the loaded catalog, so with the
catalog the program actually starts with when `data.json` is missing (the
empty dict), the ranker reports `SUPPORT_RECEIVED` for the input "ayuda"
although it is not a catalog key. -/
theorem C1_counterexample :
    find_similar_categories "ayuda" 3 = ["SUPPORT_RECEIVED"] ∧
    "SUPPORT_RECEIVED" ∉ RESPONSES_onLoadFailure.map Prod.fst := by
  decide

/-- Claim C1, amended: every identifier reported by `find_similar_categories`
is a key of its hardcoded keyword map; consequently, whenever the loaded
catalog contains every keyword-map key, the ranker reports only catalog
members. -/
theorem C1_ranker_within_catalog :
    ∀ (env : Env) (q : String) (n : Nat),
      (∀ k ∈ keyword_map_keys, k ∈ env.CATEGORIES) →
      ∀ c ∈ find_similar_categories q n, c ∈ env.CATEGORIES := by
  intro env q n hsub c hc
  rcases List.mem_map.1 hc with ⟨p, hp, rfl⟩
  exact hsub _ (mem_matchesFor (mem_sortedMatches (List.take_subset n _ hp))).1

/-- Witness for C1 at a catalog containing every keyword-map key and the
concrete question "ayuda". -/
theorem C1_witness :
    (∀ k ∈ keyword_map_keys, k ∈ envFullCatalog.CATEGORIES) ∧
    ∀ c ∈ find_similar_categories "ayuda" 3, c ∈ envFullCatalog.CATEGORIES :=
  ⟨by decide, C1_ranker_within_catalog envFullCatalog "ayuda" 3 (by decide)⟩

/-- Claim C2, counterexample: after the in-range selection "1" from a session
awaiting over the one-element list, the stored suggestion list is NOT cleared
(the claim asserts it becomes empty). -/
theorem C2_counterexample :
    ¬((handle_message envSupport sAwait "1").1.suggested_categories = []) := by
  decide

/-- Claim C2, amended: in AwaitingSelection, an in-range integer selection
whose category is in the catalog clears `awaiting_confirmation` (session is
Idle again) and emits the category's translated reply plus the follow-up, but
the stored `suggested_categories` list is left in place, not cleared. -/
theorem C2_valid_selection :
    ∀ (env : Env) (s : Session) (text : String) (choice : Int) (response_text : String),
      s.awaiting_confirmation = true →
      parse_int text = some choice →
      1 ≤ choice →
      choice ≤ (s.suggested_categories.length : Int) →
      env.RESPONSES.lookup (s.suggested_categories.getD (choice - 1).toNat "") =
        some response_text →
      handle_message env s text =
        (⟨some (sessionLanguage s text), false, s.suggested_categories⟩,
         [translate_response env response_text (sessionLanguage s text),
          follow_up_msg (sessionLanguage s text)]) := by
  intro env s text choice response_text haw hp h1 h2 hlook
  simp only [handle_message, haw, if_true, hp]
  rw [if_pos ⟨h1, h2⟩, hlook]

/-- Witness for C2: selecting "1" from `sAwait` over a catalog holding the
suggested category answers with its reply and the follow-up, leaving the
suggestion list stored. -/
theorem C2_witness :
    handle_message envSupport sAwait "1" =
      (⟨some "es", false, ["SUPPORT_RECEIVED"]⟩,
       ["We provide full onboarding support.", follow_up_msg "es"]) :=
  C2_valid_selection envSupport sAwait "1" 1 "We provide full onboarding support."
    rfl (by decide) (by decide) (by decide) (by decide)

/-- Claim C3, counterexample: a reachable state (reached by suggesting for
"ayuda" and then selecting "1" over the empty catalog) has a non-empty stored
suggestion list while `awaiting_confirmation` is false, so the claimed
equivalence fails. -/
theorem C3_counterexample :
    ∃ s, Reachable s ∧ ¬(s.suggested_categories ≠ [] ↔ s.awaiting_confirmation = true) :=
  ⟨⟨some "es", false, ["SUPPORT_RECEIVED"]⟩, reachable_stale, by decide⟩

/-- Claim C3, amended: in every reachable session state the one-sided
invariant holds: `awaiting_confirmation = true` implies `suggested_categories`
is non-empty (the converse direction is refuted above). -/
theorem C3_awaiting_implies_suggestions :
    ∀ s, Reachable s → s.awaiting_confirmation = true → s.suggested_categories ≠ [] := by
  intro s hs
  induction hs with
  | init => intro h; exact absurd h (by decide)
  | step env s' text hr ih => exact handle_message_inv env s' text ih

/-- Witness for C3 at the concrete reachable awaiting state. -/
theorem C3_witness :
    Reachable sAwait ∧ sAwait.suggested_categories ≠ [] :=
  ⟨reachable_sAwait, C3_awaiting_implies_suggestions sAwait reachable_sAwait rfl⟩

/-- Claim C4, counterexample: on the failure path (AI call raises) the
fallback phrase matcher returns its hardcoded label without validating it
against the catalog, so over the empty catalog the classifier returns
`WHAT_IS_REALTYPLUS`, which is neither a catalog member nor `OTHER`. -/
theorem C4_counterexample :
    get_category_from_ai envAIDown "what is realtyplus" = "WHAT_IS_REALTYPLUS" ∧
    ¬("WHAT_IS_REALTYPLUS" ∈ envAIDown.CATEGORIES ∨
      "WHAT_IS_REALTYPLUS" = "OTHER") := by
  decide

/-- Claim C4, amended: on the primary path (AI reply received, or no API key
configured) the classifier returns a catalog member or `OTHER`; in general it
returns a catalog member, `OTHER`, or one of the five fixed fallback labels,
which need not be catalog members. -/
theorem C4_classifier_range :
    ∀ (env : Env) (q : String),
      (env.gemini_api_key = false ∨ env.ai_reply.isSome = true →
        get_category_from_ai env q ∈ env.CATEGORIES ∨ get_category_from_ai env q = "OTHER") ∧
      (get_category_from_ai env q ∈ env.CATEGORIES ∨ get_category_from_ai env q = "OTHER" ∨
        get_category_from_ai env q ∈ fallback_categories) := by
  intro env q
  unfold get_category_from_ai
  by_cases hk : env.gemini_api_key = false
  · rw [if_pos hk]
    exact ⟨fun _ => Or.inr rfl, Or.inr (Or.inl rfl)⟩
  · rw [if_neg hk]
    cases har : env.ai_reply with
    | some raw =>
      dsimp only
      by_cases hmem : pyUpper raw.trim ∈ env.CATEGORIES
      · rw [if_pos hmem]
        exact ⟨fun _ => Or.inl hmem, Or.inl hmem⟩
      · rw [if_neg hmem]
        exact ⟨fun _ => Or.inr rfl, Or.inr (Or.inl rfl)⟩
    | none =>
      dsimp only
      constructor
      · intro h
        rcases h with h | h
        · exact absurd h hk
        · simp at h
      · split_ifs <;> simp [fallback_categories]

/-- Witness for C4 on the primary path: the AI reply `WHAT_IS_REALTYPLUS` over
a catalog containing it is accepted as a catalog member (or coerced to
`OTHER`). -/
theorem C4_witness :
    get_category_from_ai envAIUp "what is RealtyPlus" ∈ envAIUp.CATEGORIES ∨
    get_category_from_ai envAIUp "what is RealtyPlus" = "OTHER" :=
  (C4_classifier_range envAIUp "what is RealtyPlus").1 (Or.inr rfl)

/-- Claim C5: `detect_language` is total with range exactly Spanish and
English, returns Spanish precisely when the Spanish indicator count strictly
exceeds the English one (otherwise English, in particular with zero counts),
and yields English on the empty string. -/
theorem C5_detect_language_total :
    (∀ text, (detect_language text = "es" ∨ detect_language text = "en") ∧
      (detect_language text = "es" ↔ englishCount text < spanishCount text)) ∧
    detect_language "" = "en" := by
  refine ⟨fun text => ?_, by decide⟩
  unfold detect_language
  split_ifs with h1 h2
  · exact ⟨Or.inl rfl, iff_of_true rfl h1⟩
  · exact ⟨Or.inr rfl, iff_of_false (by decide) h1⟩
  · exact ⟨Or.inr rfl, iff_of_false (by decide) h1⟩

/-- Claim C6: for every question and bound, `find_similar_categories` returns
only categories of keyword-overlap score at least 1, at most `top_n` of them,
ordered by non-strictly descending score with ties in the keyword map's
original iteration order (stable sort). -/
theorem C6_rank_sorted_bounded_positive :
    ∀ (q : String) (n : Nat),
      (∀ c ∈ find_similar_categories q n, 1 ≤ categoryScore q c) ∧
      (find_similar_categories q n).length ≤ n ∧
      (find_similar_categories q n).Pairwise
        (fun a b => categoryScore q b < categoryScore q a ∨
          (categoryScore q a = categoryScore q b ∧ catalogIdx a < catalogIdx b)) := by
  intro q n
  refine ⟨?_, ?_, ?_⟩
  · intro c hc
    unfold find_similar_categories at hc
    rcases List.mem_map.1 hc with ⟨p, hp, rfl⟩
    have hm := mem_matchesFor (mem_sortedMatches (List.take_subset n _ hp))
    rw [← hm.2.2]
    exact hm.2.1
  · unfold find_similar_categories
    rw [List.length_map]
    exact List.length_take_le n _
  · unfold find_similar_categories
    have htake : ((sortByScoreDesc (matchesFor q)).take n).Pairwise rankRel :=
      List.Pairwise.sublist (List.take_sublist n _) (sortedMatches_pairwise q)
    refine List.pairwise_map.mpr ?_
    refine htake.imp_of_mem ?_
    intro a b ha hb hab
    have ha' := mem_matchesFor (mem_sortedMatches (List.take_subset n _ ha))
    have hb' := mem_matchesFor (mem_sortedMatches (List.take_subset n _ hb))
    rcases hab with h | ⟨heq, hidx⟩
    · refine Or.inl ?_
      rw [← ha'.2.2, ← hb'.2.2]
      exact h
    · refine Or.inr ⟨?_, hidx⟩
      rw [← ha'.2.2, ← hb'.2.2]
      exact heq

/-- Witness for C6 at a question matching several categories with a score tie. -/
theorem C6_witness :
    (∀ c ∈ find_similar_categories "contactar al equipo, what is realtyplus" 3,
      1 ≤ categoryScore "contactar al equipo, what is realtyplus" c) ∧
    (find_similar_categories "contactar al equipo, what is realtyplus" 3).length ≤ 3 ∧
    (find_similar_categories "contactar al equipo, what is realtyplus" 3).Pairwise
      (fun a b => categoryScore "contactar al equipo, what is realtyplus" b <
          categoryScore "contactar al equipo, what is realtyplus" a ∨
        (categoryScore "contactar al equipo, what is realtyplus" a =
            categoryScore "contactar al equipo, what is realtyplus" b ∧
          catalogIdx a < catalogIdx b)) :=
  C6_rank_sorted_bounded_positive "contactar al equipo, what is realtyplus" 3

/-- Claim C7: `translate_response` is the identity for target English, and for
target Spanish it returns the original text whenever the localization
capability is absent (no API key) or its call raises. -/
theorem C7_translate_fallback :
    ∀ (env : Env) (text : String),
      translate_response env text "en" = text ∧
      (env.gemini_api_key = false → translate_response env text "es" = text) ∧
      (env.tr_reply text = none → translate_response env text "es" = text) := by
  intro env text
  refine ⟨rfl, fun hk => ?_, fun ht => ?_⟩
  · unfold translate_response
    rw [if_neg (by decide), if_pos hk]
  · unfold translate_response
    rw [if_neg (by decide)]
    by_cases hk : env.gemini_api_key = false
    · rw [if_pos hk]
    · rw [if_neg hk, ht]

/-- Witness for C7 at a concrete keyless environment and text. -/
theorem C7_witness :
    translate_response envNoKey "Hello" "en" = "Hello" ∧
    translate_response envNoKey "Hello" "es" = "Hello" :=
  ⟨(C7_translate_fallback envNoKey "Hello").1,
   (C7_translate_fallback envNoKey "Hello").2.1 rfl⟩

/-- Claim C8: in AwaitingSelection, an integer outside `[1, N]` leaves the
session state unchanged (still awaiting, same suggestions, only the language
key rewritten to its current value) and emits exactly the localized
invalid-selection message. -/
theorem C8_invalid_selection :
    ∀ (env : Env) (s : Session) (text : String) (choice : Int),
      s.awaiting_confirmation = true →
      parse_int text = some choice →
      ¬(1 ≤ choice ∧ choice ≤ (s.suggested_categories.length : Int)) →
      handle_message env s text =
        ({ s with user_language := some (sessionLanguage s text) },
         [invalid_selection_msg (sessionLanguage s text)]) := by
  intro env s text choice haw hp hrange
  simp only [handle_message, haw, if_true, hp]
  rw [if_neg hrange]

/-- Witness for C8: replying "9" to the one-item suggestion list. -/
theorem C8_witness :
    handle_message envNoKey sAwait "9" = (sAwait, [invalid_selection_msg "es"]) :=
  C8_invalid_selection envNoKey sAwait "9" 9 rfl (by decide) (by decide)

/-- Claim C9: in AwaitingSelection, a message that does not parse as an
integer is handled exactly as the same message in the Idle state obtained by
clearing `awaiting_confirmation`: the turn runs the Idle-state classification
flow on it. -/
theorem C9_non_numeric_reclassified :
    ∀ (env : Env) (s : Session) (text : String),
      s.awaiting_confirmation = true →
      parse_int text = none →
      handle_message env s text =
        handle_message env { s with awaiting_confirmation := false } text ∧
      handle_message env s text =
        idle_flow env ⟨some (sessionLanguage s text), false, s.suggested_categories⟩
          (sessionLanguage s text) text := by
  intro env s text haw hp
  constructor
  · simp only [handle_message, haw, if_true, hp]
    rfl
  · simp only [handle_message, haw, if_true, hp]

/-- Witness for C9: the non-numeric reply "hola" from the awaiting session. -/
theorem C9_witness :
    handle_message envNoKey sAwait "hola" =
      handle_message envNoKey { sAwait with awaiting_confirmation := false } "hola" :=
  (C9_non_numeric_reclassified envNoKey sAwait "hola" rfl (by decide)).1

/-- Claim C10: in AwaitingSelection, an in-range selection whose category has
no catalog entry clears `awaiting_confirmation` and ends the turn with no
message sent at all. -/
theorem C10_uncataloged_selection_silent :
    ∀ (env : Env) (s : Session) (text : String) (choice : Int),
      s.awaiting_confirmation = true →
      parse_int text = some choice →
      1 ≤ choice →
      choice ≤ (s.suggested_categories.length : Int) →
      env.RESPONSES.lookup (s.suggested_categories.getD (choice - 1).toNat "") = none →
      handle_message env s text =
        (⟨some (sessionLanguage s text), false, s.suggested_categories⟩, []) := by
  intro env s text choice haw hp h1 h2 hlook
  simp only [handle_message, haw, if_true, hp]
  rw [if_pos ⟨h1, h2⟩, hlook]

/-- Witness for C10: selecting "1" over the empty catalog yields no reply. -/
theorem C10_witness :
    handle_message envNoKey sAwait "1" =
      (⟨some "es", false, ["SUPPORT_RECEIVED"]⟩, []) :=
  C10_uncataloged_selection_silent envNoKey sAwait "1" 1 rfl (by decide) (by decide)
    (by decide) rfl

end RealtyBot
